import Mathlib

/-!
Shallow embedding of the smolkv-client repository (Rust): the typed client
facade in src/lib.rs, its error taxonomy in src/errors.rs, and the CLI path
parser in examples/cli.rs.  Strings are modelled as lists of characters so
that the character-level operations of the source (split, trim, join,
format concatenation) can be reasoned about by induction.  HTTP status
codes are natural numbers; an HTTP response is modelled by the three
observations the client code makes of it: its status code, the path of the
request URL, and its body text.
-/

/-- Strings of the source, modelled as lists of characters. -/
abbrev Str := List Char

/-- Error taxonomy from src/errors.rs.  The three wrapper variants carry the
underlying error rendered as text. -/
inductive Error where
  | Http (msg : Str)
  | Json (msg : Str)
  | Io (msg : Str)
  | NotFound (path : Str)
  | AlreadyExists (path : Str)
  | BadRequest (msg : Str)
  | Server (msg : Str)
deriving DecidableEq

/-- The observations the client makes of a completed reqwest HTTP response:
`status` is the status code, `urlPath` is the path component of the request
URL as returned by resp.url().path(), and `body` is the response body
(text or bytes). -/
structure Response where
  status : Nat
  urlPath : Str
  body : Str
deriving DecidableEq

/-- reqwest StatusCode::is_success: the 2xx range. -/
def isSuccess (s : Nat) : Bool := 200 ≤ s && s < 300

/-- Rust str::trim_start_matches with a single-character pattern: removes
every leading occurrence of the character. -/
def trimStartMatches (sep : Char) : Str → Str
  | [] => []
  | c :: cs => if c = sep then trimStartMatches sep cs else c :: cs

/-- SmolKv::url from src/lib.rs: trims leading slashes from the path and
produces endpoint ++ "/api/" ++ path. -/
def url (endpoint : Str) (path : Str) : Str :=
  endpoint ++ ("/api/".toList ++ trimStartMatches '/' path)

/-- Message text of the Server error produced by the catch-all arm of
SmolKv::handle_response for an unexpected status code.  The Rust source
formats the StatusCode with Display, which prints the numeric code followed
by its canonical reason phrase; we model the numeric part, which is what
determines the payload. -/
def serverMsg (s : Nat) : Str := "unexpected status: ".toList ++ (toString s).toList

/-- Message carried by the Http error when decoding the body of a 200/201
response fails (reqwest reports the serde failure as a body-decode
reqwest::Error, which errors.rs converts into the Http variant). -/
def decodeFailureMsg : Str := "error decoding response body".toList

/-- SmolKv::handle_response from src/lib.rs, parametrised by the serde
decoder of the expected type T: 200/201 decode the body, 404 / 409 / 400
map to NotFound / AlreadyExists / BadRequest, and every other status maps
to Server. -/
def handle_response {T : Type} (decode : Str → Option T) (resp : Response) :
    Except Error T :=
  if resp.status = 200 ∨ resp.status = 201 then
    match decode resp.body with
    | some v => .ok v
    | none => .error (.Http decodeFailureMsg)
  else if resp.status = 404 then .error (.NotFound resp.urlPath)
  else if resp.status = 409 then .error (.AlreadyExists resp.urlPath)
  else if resp.status = 400 then .error (.BadRequest resp.body)
  else .error (.Server (serverMsg resp.status))

/-- SmolKv::delete from src/lib.rs: wraps resp.status().is_success() in Ok,
never inspecting the status further. -/
def delete_result (resp : Response) : Except Error Bool :=
  .ok (isSuccess resp.status)

/-- SmolKv::exists from src/lib.rs: wraps resp.status().is_success() in Ok. -/
def exists_result (resp : Response) : Except Error Bool :=
  .ok (isSuccess resp.status)

/-- SmolKv::collection_exists from src/lib.rs: wraps
resp.status().is_success() in Ok. -/
def collection_exists_result (resp : Response) : Except Error Bool :=
  .ok (isSuccess resp.status)

/-- SmolKv::subscribe from src/lib.rs, given the received response: status
200 returns the raw response handle itself, any other status maps to
NotFound carrying the collection name. -/
def subscribe_result (collection : Str) (resp : Response) :
    Except Error Response :=
  if resp.status = 200 then .ok resp
  else .error (.NotFound collection)

/-- Request URL of SmolKv::create_collection from src/lib.rs: url(name). -/
def create_collection_url (endpoint name : Str) : Str := url endpoint name

/-- Request URL of SmolKv::drop_collection from src/lib.rs: the name is
first formatted with a leading slash, then passed through url. -/
def drop_collection_url (endpoint name : Str) : Str :=
  url endpoint ('/' :: name)

/-- Request URL of SmolKv::download_backup from src/lib.rs: built by
formatting directly on the endpoint, not through url, so no "/api/"
segment is inserted. -/
def download_backup_url (endpoint collection backup_id : Str) : Str :=
  endpoint ++ ("/backups/".toList ++ collection ++ ("-".toList ++ backup_id ++ ".sst".toList))

/-- Status handling of SmolKv::download_backup from src/lib.rs: 200 yields
the raw body bytes, 404 maps to NotFound carrying the backup id, and any
other status maps to Server. -/
def download_backup_result (backup_id : Str) (resp : Response) :
    Except Error Str :=
  if resp.status = 200 then .ok resp.body
  else if resp.status = 404 then .error (.NotFound backup_id)
  else .error (.Server (serverMsg resp.status))

/-- SortOrder from src/lib.rs. -/
inductive SortOrder where
  | Asc
  | Desc
deriving DecidableEq

/-- QueryBuilder from src/lib.rs.  The Rust field `from` is a Lean keyword,
so it is rendered `from_`; all other field names are kept. -/
structure QueryBuilder where
  from_ : Option Str
  to_ : Option Str
  limit : Option Nat
  order : Option SortOrder
  keys : Bool
  query : Option Str
deriving DecidableEq

/-- QueryBuilder::new, via the derived Default: every Option field is None
and keys is false. -/
def QueryBuilder.new : QueryBuilder :=
  { from_ := none, to_ := none, limit := none, order := none,
    keys := false, query := none }

/-- QueryBuilder::query setter: stores Some of the supplied string. -/
def QueryBuilder.setQuery (b : QueryBuilder) (q : Str) : QueryBuilder :=
  { b with query := some q }

/-- QueryBuilder::keys setter: stores the supplied boolean. -/
def QueryBuilder.setKeys (b : QueryBuilder) (include_keys : Bool) : QueryBuilder :=
  { b with keys := include_keys }

/-- QueryBuilder::order setter: stores Some of the supplied order. -/
def QueryBuilder.setOrder (b : QueryBuilder) (o : SortOrder) : QueryBuilder :=
  { b with order := some o }

/-- QueryBuilder::from setter: stores the supplied optional string. -/
def QueryBuilder.setFrom (b : QueryBuilder) (f : Option Str) : QueryBuilder :=
  { b with from_ := f }

/-- QueryBuilder::to setter: stores the supplied optional string. -/
def QueryBuilder.setTo (b : QueryBuilder) (t : Option Str) : QueryBuilder :=
  { b with to_ := t }

/-- QueryBuilder::limit setter: stores the supplied optional limit. -/
def QueryBuilder.setLimit (b : QueryBuilder) (l : Option Nat) : QueryBuilder :=
  { b with limit := l }

/-- JSON values that can appear as a field of the serialized QueryBuilder
object. -/
inductive Json where
  | null
  | bool (b : Bool)
  | num (n : Nat)
  | str (s : Str)
deriving DecidableEq

/-- Serde serialization of an Option String field: None becomes JSON null,
Some s becomes the string. -/
def jsonOfOptStr : Option Str → Json
  | none => .null
  | some s => .str s

/-- Serde serialization of the Option usize limit field. -/
def jsonOfOptNat : Option Nat → Json
  | none => .null
  | some n => .num n

/-- Serde serialization of SortOrder with rename_all = "lowercase". -/
def jsonOfSortOrder : SortOrder → Json
  | .Asc => .str "asc".toList
  | .Desc => .str "desc".toList

/-- Serde serialization of the Option SortOrder field. -/
def jsonOfOptOrder : Option SortOrder → Json
  | none => .null
  | some o => jsonOfSortOrder o

/-- Fields of the JSON object produced by the derived Serialize of
QueryBuilder, as sent by SmolKv::query_collection via .json(&query): the
derive carries no skip attribute, so every field is emitted, with None
serialized as JSON null. -/
def serializeQueryBuilder (b : QueryBuilder) : List (Str × Json) :=
  [("from".toList, jsonOfOptStr b.from_),
   ("to".toList, jsonOfOptStr b.to_),
   ("limit".toList, jsonOfOptNat b.limit),
   ("order".toList, jsonOfOptOrder b.order),
   ("keys".toList, .bool b.keys),
   ("query".toList, jsonOfOptStr b.query)]

/-- Rust str::split with a single-character pattern: always yields at least
one (possibly empty) piece, one more piece per occurrence of the
separator. -/
def splitOnChar (sep : Char) : Str → List Str
  | [] => [[]]
  | c :: cs =>
    match splitOnChar sep cs with
    | [] => if c = sep then [[], []] else [[c]]
    | r :: rs => if c = sep then [] :: r :: rs else (c :: r) :: rs

/-- Rust slice join: concatenates the pieces with the separator between
consecutive pieces. -/
def joinWith (sep : Str) : List Str → Str
  | [] => []
  | [x] => x
  | x :: xs => x ++ sep ++ joinWith sep xs

/-- Error message of parse_key_path for a path without a separator. -/
def wrongPathMsg : Str := "Invalid path format. Use <collection>/<key>".toList

/-- parse_key_path from examples/cli.rs: splits on slash; one piece is
malformed, two pieces are (collection, key), and with more pieces the
first is the collection and the rest are re-joined with slashes as the
key.  splitOnChar never returns an empty list, so the first arm is
unreachable (the Rust wildcard arm would index out of bounds there). -/
def parse_key_path (path : Str) : Except Error (Str × Str) :=
  match splitOnChar '/' path with
  | [] => .error (.BadRequest wrongPathMsg)
  | [_] => .error (.BadRequest wrongPathMsg)
  | [collection, key] => .ok (collection, key)
  | collection :: rest => .ok (collection, joinWith ['/'] rest)


/-! Helper lemmas about the character-level operations. -/

/-- Rust str::split always yields at least one piece. -/
theorem splitOnChar_ne_nil (sep : Char) (s : Str) : splitOnChar sep s ≠ [] := by
  cases s with
  | nil => simp [splitOnChar]
  | cons c cs =>
    cases h : splitOnChar sep cs with
    | nil => by_cases hc : c = sep <;> simp [splitOnChar, h, hc]
    | cons r rs => by_cases hc : c = sep <;> simp [splitOnChar, h, hc]

/-- Splitting a string that does not contain the separator yields the
string as its only piece. -/
theorem splitOnChar_no_sep (sep : Char) (s : Str) (h : sep ∉ s) :
    splitOnChar sep s = [s] := by
  induction s with
  | nil => rfl
  | cons c cs ih =>
    have hc : ¬ c = sep := fun e => h (e ▸ List.mem_cons_self c cs)
    have ih' := ih (fun m => h (List.mem_cons_of_mem c m))
    simp [splitOnChar, ih', hc]

/-- Splitting around the first separator: when the prefix is
separator-free, the split of prefix ++ sep :: rest is the prefix followed
by the split of the rest. -/
theorem splitOnChar_append_sep (sep : Char) (a b : Str) (h : sep ∉ a) :
    splitOnChar sep (a ++ sep :: b) = a :: splitOnChar sep b := by
  induction a with
  | nil =>
    cases hb : splitOnChar sep b with
    | nil => exact absurd hb (splitOnChar_ne_nil sep b)
    | cons r rs => simp [splitOnChar, hb]
  | cons c cs ih =>
    have hc : ¬ c = sep := fun e => h (e ▸ List.mem_cons_self c cs)
    have ih' := ih (fun m => h (List.mem_cons_of_mem c m))
    simp [splitOnChar, ih', hc]

/-- Joining the pieces of a split with the same separator restores the
original string. -/
theorem joinWith_splitOnChar (sep : Char) (s : Str) :
    joinWith [sep] (splitOnChar sep s) = s := by
  induction s with
  | nil => rfl
  | cons c cs ih =>
    cases h : splitOnChar sep cs with
    | nil => exact absurd h (splitOnChar_ne_nil sep cs)
    | cons r rs =>
      rw [h] at ih
      by_cases hc : c = sep
      · subst hc
        cases rs <;> simpa [splitOnChar, h, joinWith] using ih
      · cases rs <;> simp_all [splitOnChar, h, joinWith, hc]

/-- Trimming does nothing when the string does not start with the
separator. -/
theorem trimStartMatches_eq_self (sep : Char) (s : Str)
    (h : s.head? ≠ some sep) : trimStartMatches sep s = s := by
  cases s with
  | nil => rfl
  | cons c cs =>
    have hc : ¬ c = sep := fun e => h (by simp [e])
    simp [trimStartMatches, hc]

/-! Claim theorems. -/

/-- C1: handle_response returns Ok of the decoded body on status 200 or
201, NotFound carrying the request path on 404, AlreadyExists carrying the
request path on 409, BadRequest carrying the body text on 400, and for any
other non-2xx status a Server error whose message embeds the numeric
status code. -/
theorem handle_response_status_table :
    ∀ {T : Type} (decode : Str → Option T) (resp : Response),
      (∀ v : T, (resp.status = 200 ∨ resp.status = 201) → decode resp.body = some v →
        handle_response decode resp = .ok v) ∧
      (resp.status = 404 → handle_response decode resp = .error (.NotFound resp.urlPath)) ∧
      (resp.status = 409 → handle_response decode resp = .error (.AlreadyExists resp.urlPath)) ∧
      (resp.status = 400 → handle_response decode resp = .error (.BadRequest resp.body)) ∧
      (¬ (200 ≤ resp.status ∧ resp.status < 300) → resp.status ≠ 404 → resp.status ≠ 409 →
        resp.status ≠ 400 →
        handle_response decode resp = .error (.Server (serverMsg resp.status))) := by
  intro T d resp
  refine ⟨?_, ?_, ?_, ?_, ?_⟩
  · intro v hs hd
    rcases hs with h | h <;> simp [handle_response, h, hd]
  · intro h; simp [handle_response, h]
  · intro h; simp [handle_response, h]
  · intro h; simp [handle_response, h]
  · intro h2 h404 h409 h400
    have h200 : resp.status ≠ 200 := by omega
    have h201 : resp.status ≠ 201 := by omega
    simp [handle_response, h200, h201, h404, h409, h400]

/-- Witness for C1: the status table evaluated on concrete responses for
each of the five branches. -/
theorem handle_response_status_table_witness :
    handle_response (fun _ => some 7) ⟨200, "/api/c".toList, "[]".toList⟩ = .ok 7 ∧
    handle_response (fun _ => some 7) ⟨201, "/api/c".toList, "[]".toList⟩ = .ok 7 ∧
    handle_response (fun _ => some 7) ⟨404, "/api/c".toList, []⟩ =
      .error (.NotFound "/api/c".toList) ∧
    handle_response (fun _ => some 7) ⟨409, "/api/c".toList, []⟩ =
      .error (.AlreadyExists "/api/c".toList) ∧
    handle_response (fun _ => some 7) ⟨400, "/api/c".toList, "bad".toList⟩ =
      .error (.BadRequest "bad".toList) ∧
    handle_response (fun _ => some 7) ⟨500, "/api/c".toList, []⟩ =
      .error (.Server (serverMsg 500)) :=
  ⟨(handle_response_status_table (fun _ => some 7) ⟨200, "/api/c".toList, "[]".toList⟩).1
      7 (Or.inl rfl) rfl,
   (handle_response_status_table (fun _ => some 7) ⟨201, "/api/c".toList, "[]".toList⟩).1
      7 (Or.inr rfl) rfl,
   (handle_response_status_table (fun _ => some 7) ⟨404, "/api/c".toList, []⟩).2.1 rfl,
   (handle_response_status_table (fun _ => some 7) ⟨409, "/api/c".toList, []⟩).2.2.1 rfl,
   (handle_response_status_table (fun _ => some 7) ⟨400, "/api/c".toList, "bad".toList⟩).2.2.2.1
      rfl,
   (handle_response_status_table (fun _ => some 7) ⟨500, "/api/c".toList, []⟩).2.2.2.2
      (by decide) (by decide) (by decide) (by decide)⟩

/-- C2 counterexample: the derived serialization of QueryBuilder always
emits the query field, so a builder whose query was set to the empty
string serializes with the field present (as the empty string), and a
builder whose query is absent serializes with the field present as null —
the field is not omitted. -/
theorem query_field_not_omitted_counterexample :
    (serializeQueryBuilder (QueryBuilder.new.setQuery [])).lookup "query".toList
      = some (Json.str []) ∧
    (serializeQueryBuilder QueryBuilder.new).lookup "query".toList = some Json.null :=
  ⟨rfl, rfl⟩

/-- C2 amended: the JSON body produced for query_collection always
contains the query field; it is JSON null when the builder's query is
absent and the stored string (even when empty) when it was set. -/
theorem query_field_always_serialized (b : QueryBuilder) :
    (serializeQueryBuilder b).lookup "query".toList =
      some (match b.query with
            | none => Json.null
            | some s => Json.str s) := by
  cases hq : b.query <;> simp [serializeQueryBuilder, jsonOfOptStr, List.lookup, hq]

/-- C3: delete, exists and collection_exists wrap is_success in Ok, so any
2xx response yields Ok true, any other response yields Ok false, the
calls never produce an error value, and in particular delete on a 404
response yields Ok false rather than NotFound. -/
theorem boolean_result_calls_spec :
    (∀ resp : Response,
      (200 ≤ resp.status ∧ resp.status < 300 →
        delete_result resp = .ok true ∧ exists_result resp = .ok true ∧
        collection_exists_result resp = .ok true) ∧
      (¬ (200 ≤ resp.status ∧ resp.status < 300) →
        delete_result resp = .ok false ∧ exists_result resp = .ok false ∧
        collection_exists_result resp = .ok false) ∧
      (∀ e : Error, delete_result resp ≠ .error e ∧ exists_result resp ≠ .error e ∧
        collection_exists_result resp ≠ .error e)) ∧
    (∀ p b : Str, delete_result ⟨404, p, b⟩ = .ok false) := by
  constructor
  · intro resp
    refine ⟨?_, ?_, ?_⟩
    · intro h
      have hs : isSuccess resp.status = true := by simp [isSuccess]; omega
      simp [delete_result, exists_result, collection_exists_result, hs]
    · intro h
      have hs : isSuccess resp.status = false := by simp [isSuccess]; omega
      simp [delete_result, exists_result, collection_exists_result, hs]
    · intro e
      refine ⟨?_, ?_, ?_⟩ <;>
        simp [delete_result, exists_result, collection_exists_result]
  · intro p b; rfl

/-- Witness for C3: concrete statuses on both sides of the success range. -/
theorem boolean_result_calls_spec_witness :
    delete_result ⟨200, [], []⟩ = .ok true ∧
    delete_result ⟨404, [], []⟩ = .ok false ∧
    exists_result ⟨204, [], []⟩ = .ok true ∧
    collection_exists_result ⟨500, [], []⟩ = .ok false :=
  ⟨((boolean_result_calls_spec.1 ⟨200, [], []⟩).1 (by decide)).1,
   boolean_result_calls_spec.2 [] [],
   ((boolean_result_calls_spec.1 ⟨204, [], []⟩).1 (by decide)).2.1,
   ((boolean_result_calls_spec.1 ⟨500, [], []⟩).2.1 (by decide)).2.2⟩

/-- C4: parse_key_path takes the first slash-separated segment as the
collection and rejoins the remaining segments with slashes as the key,
and rejects a path without any slash as a BadRequest. -/
theorem parse_key_path_first_segment :
    (∀ c k : Str, '/' ∉ c → parse_key_path (c ++ '/' :: k) = .ok (c, k)) ∧
    (∀ p : Str, '/' ∉ p → parse_key_path p = .error (.BadRequest wrongPathMsg)) ∧
    parse_key_path "coll/a/b/c".toList = .ok ("coll".toList, "a/b/c".toList) ∧
    parse_key_path "coll".toList = .error (.BadRequest wrongPathMsg) := by
  refine ⟨?_, ?_, rfl, rfl⟩
  · intro c k hc
    have hsplit := splitOnChar_append_sep '/' c k hc
    have hjoin := joinWith_splitOnChar '/' k
    cases hk : splitOnChar '/' k with
    | nil => exact absurd hk (splitOnChar_ne_nil '/' k)
    | cons r rs =>
      rw [hk] at hsplit hjoin
      cases rs with
      | nil =>
        have hr : r = k := by simpa [joinWith] using hjoin
        simp [parse_key_path, hsplit, hr]
      | cons r2 rs2 =>
        simp [parse_key_path, hsplit, hjoin]
  · intro p hp
    simp [parse_key_path, splitOnChar_no_sep '/' p hp]

/-- Witness for C4: a collection with a slash-bearing key, and a path with
no separator. -/
theorem parse_key_path_first_segment_witness :
    parse_key_path ("users".toList ++ '/' :: "a/b".toList) =
      .ok ("users".toList, "a/b".toList) ∧
    parse_key_path "nokey".toList = .error (.BadRequest wrongPathMsg) :=
  ⟨parse_key_path_first_segment.1 "users".toList "a/b".toList (by decide),
   parse_key_path_first_segment.2.1 "nokey".toList (by decide)⟩

/-- C5: url strips every leading slash from the caller-supplied path and
concatenates base, "/api/" and the trimmed path, so a path with a leading
slash and the same path without it produce the same URL, and both "/foo"
and "foo" against "http://h" give "http://h/api/foo". -/
theorem url_strips_leading_separators :
    (∀ e p : Str, url e ('/' :: p) = url e p) ∧
    (∀ (p : Str) (c : Char) (rest : Str),
      trimStartMatches '/' p = c :: rest → c ≠ '/') ∧
    url "http://h".toList "/foo".toList = "http://h/api/foo".toList ∧
    url "http://h".toList "foo".toList = "http://h/api/foo".toList := by
  refine ⟨?_, ?_, rfl, rfl⟩
  · intro e p; simp [url, trimStartMatches]
  · intro p
    induction p with
    | nil => intro c rest h; simp [trimStartMatches] at h
    | cons a as ih =>
      intro c rest h
      by_cases ha : a = '/'
      · exact ih c rest (by simpa [trimStartMatches, ha] using h)
      · obtain ⟨hac, -⟩ : a = c ∧ as = rest := by
          simpa [trimStartMatches, ha] using h
        exact hac ▸ ha

/-- Witness for C5: the idempotent-slash law and the head of a trimmed
path at concrete inputs. -/
theorem url_strips_leading_separators_witness :
    url "http://h".toList ('/' :: "foo".toList) = url "http://h".toList "foo".toList ∧
    'f' ≠ '/' :=
  ⟨url_strips_leading_separators.1 "http://h".toList "foo".toList,
   url_strips_leading_separators.2.1 "foo".toList 'f' "oo".toList (by decide)⟩

/-- C6: subscribe hands back the raw streaming response itself on status
200 and maps every other status to NotFound carrying the collection
name. -/
theorem subscribe_status_mapping :
    ∀ (collection : Str) (resp : Response),
      (resp.status = 200 → subscribe_result collection resp = .ok resp) ∧
      (resp.status ≠ 200 →
        subscribe_result collection resp = .error (.NotFound collection)) := by
  intro collection resp
  exact ⟨fun h => by simp [subscribe_result, h],
         fun h => by simp [subscribe_result, h]⟩

/-- Witness for C6: a 200 response and a 404 response for a concrete
collection. -/
theorem subscribe_status_mapping_witness :
    subscribe_result "c".toList ⟨200, [], []⟩ = .ok ⟨200, [], []⟩ ∧
    subscribe_result "c".toList ⟨404, [], []⟩ = .error (.NotFound "c".toList) :=
  ⟨(subscribe_status_mapping "c".toList ⟨200, [], []⟩).1 rfl,
   (subscribe_status_mapping "c".toList ⟨404, [], []⟩).2 (by decide)⟩

/-- C7: download_backup requests endpoint ++ "/backups/" ++ collection ++
"-" ++ id ++ ".sst" with no "/api/" segment, and maps status 200 to the
raw bytes, 404 to NotFound, and any other status to Server. -/
theorem download_backup_contract :
    (∀ e c i : Str, download_backup_url e c i =
      e ++ "/backups/".toList ++ c ++ "-".toList ++ i ++ ".sst".toList) ∧
    download_backup_url "http://h".toList "users".toList "42".toList =
      "http://h/backups/users-42.sst".toList ∧
    (∀ (i : Str) (resp : Response),
      (resp.status = 200 → download_backup_result i resp = .ok resp.body) ∧
      (resp.status = 404 → download_backup_result i resp = .error (.NotFound i)) ∧
      (resp.status ≠ 200 → resp.status ≠ 404 →
        download_backup_result i resp = .error (.Server (serverMsg resp.status)))) := by
  refine ⟨?_, rfl, ?_⟩
  · intro e c i; simp [download_backup_url]
  · intro i resp
    exact ⟨fun h => by simp [download_backup_result, h],
           fun h => by simp [download_backup_result, h],
           fun h1 h2 => by simp [download_backup_result, h1, h2]⟩

/-- Witness for C7: the three status branches at concrete responses. -/
theorem download_backup_contract_witness :
    download_backup_result "42".toList ⟨200, [], "bytes".toList⟩ = .ok "bytes".toList ∧
    download_backup_result "42".toList ⟨404, [], []⟩ = .error (.NotFound "42".toList) ∧
    download_backup_result "42".toList ⟨500, [], []⟩ = .error (.Server (serverMsg 500)) :=
  ⟨(download_backup_contract.2.2 "42".toList ⟨200, [], "bytes".toList⟩).1 rfl,
   (download_backup_contract.2.2 "42".toList ⟨404, [], []⟩).2.1 rfl,
   (download_backup_contract.2.2 "42".toList ⟨500, [], []⟩).2.2 (by decide) (by decide)⟩

/-- C8: QueryBuilder::new starts with every optional field absent and keys
false, and each setter updates exactly its own field, leaving the other
five fields of the receiver unchanged. -/
theorem querybuilder_setters_frame :
    (QueryBuilder.new.from_ = none ∧ QueryBuilder.new.to_ = none ∧
     QueryBuilder.new.limit = none ∧ QueryBuilder.new.order = none ∧
     QueryBuilder.new.keys = false ∧ QueryBuilder.new.query = none) ∧
    (∀ (b : QueryBuilder) (q : Str),
      (b.setQuery q).query = some q ∧ (b.setQuery q).from_ = b.from_ ∧
      (b.setQuery q).to_ = b.to_ ∧ (b.setQuery q).limit = b.limit ∧
      (b.setQuery q).order = b.order ∧ (b.setQuery q).keys = b.keys) ∧
    (∀ (b : QueryBuilder) (k : Bool),
      (b.setKeys k).keys = k ∧ (b.setKeys k).from_ = b.from_ ∧
      (b.setKeys k).to_ = b.to_ ∧ (b.setKeys k).limit = b.limit ∧
      (b.setKeys k).order = b.order ∧ (b.setKeys k).query = b.query) ∧
    (∀ (b : QueryBuilder) (o : SortOrder),
      (b.setOrder o).order = some o ∧ (b.setOrder o).from_ = b.from_ ∧
      (b.setOrder o).to_ = b.to_ ∧ (b.setOrder o).limit = b.limit ∧
      (b.setOrder o).keys = b.keys ∧ (b.setOrder o).query = b.query) ∧
    (∀ (b : QueryBuilder) (f : Option Str),
      (b.setFrom f).from_ = f ∧ (b.setFrom f).to_ = b.to_ ∧
      (b.setFrom f).limit = b.limit ∧ (b.setFrom f).order = b.order ∧
      (b.setFrom f).keys = b.keys ∧ (b.setFrom f).query = b.query) ∧
    (∀ (b : QueryBuilder) (t : Option Str),
      (b.setTo t).to_ = t ∧ (b.setTo t).from_ = b.from_ ∧
      (b.setTo t).limit = b.limit ∧ (b.setTo t).order = b.order ∧
      (b.setTo t).keys = b.keys ∧ (b.setTo t).query = b.query) ∧
    (∀ (b : QueryBuilder) (l : Option Nat),
      (b.setLimit l).limit = l ∧ (b.setLimit l).from_ = b.from_ ∧
      (b.setLimit l).to_ = b.to_ ∧ (b.setLimit l).order = b.order ∧
      (b.setLimit l).keys = b.keys ∧ (b.setLimit l).query = b.query) :=
  ⟨⟨rfl, rfl, rfl, rfl, rfl, rfl⟩,
   fun _ _ => ⟨rfl, rfl, rfl, rfl, rfl, rfl⟩,
   fun _ _ => ⟨rfl, rfl, rfl, rfl, rfl, rfl⟩,
   fun _ _ => ⟨rfl, rfl, rfl, rfl, rfl, rfl⟩,
   fun _ _ => ⟨rfl, rfl, rfl, rfl, rfl, rfl⟩,
   fun _ _ => ⟨rfl, rfl, rfl, rfl, rfl, rfl⟩,
   fun _ _ => ⟨rfl, rfl, rfl, rfl, rfl, rfl⟩⟩

/-- C9: a 2xx status other than 200 or 201 falls through to the catch-all
arm of handle_response and is reported as a Server error, even though the
server reported success. -/
theorem handle_response_rejects_other_2xx :
    ∀ {T : Type} (decode : Str → Option T) (resp : Response),
      isSuccess resp.status = true → resp.status ≠ 200 → resp.status ≠ 201 →
      handle_response decode resp = .error (.Server (serverMsg resp.status)) := by
  intro T d resp hs h200 h201
  have hb : 200 ≤ resp.status ∧ resp.status < 300 := by simpa [isSuccess] using hs
  have h404 : resp.status ≠ 404 := by omega
  have h409 : resp.status ≠ 409 := by omega
  have h400 : resp.status ≠ 400 := by omega
  simp [handle_response, h200, h201, h404, h409, h400]

/-- Witness for C9: a 204 No Content response is rejected with a Server
error. -/
theorem handle_response_rejects_other_2xx_witness :
    handle_response (fun _ => some 0) ⟨204, [], []⟩ =
      Except.error (Error.Server (serverMsg 204)) ∧
    serverMsg 204 = "unexpected status: 204".toList :=
  ⟨handle_response_rejects_other_2xx (fun _ => some 0) ⟨204, [], []⟩
      (by decide) (by decide) (by decide), rfl⟩

/-- C10: the URL of drop_collection coincides with the URL of
create_collection for every name, because the slash prepended by
drop_collection is removed again by the trimming in url; for a name
without a leading slash that common URL is base ++ "/api/" ++ name. -/
theorem drop_create_collection_same_url :
    ∀ endpoint name : Str,
      drop_collection_url endpoint name = create_collection_url endpoint name ∧
      (name.head? ≠ some '/' →
        create_collection_url endpoint name = endpoint ++ "/api/".toList ++ name) := by
  intro e n
  constructor
  · simp [drop_collection_url, create_collection_url, url, trimStartMatches]
  · intro h
    simp [create_collection_url, url, trimStartMatches_eq_self '/' n h]

/-- Witness for C10: both collection-lifecycle URLs for the name "users"
against the base "http://h". -/
theorem drop_create_collection_same_url_witness :
    drop_collection_url "http://h".toList "users".toList =
      create_collection_url "http://h".toList "users".toList ∧
    create_collection_url "http://h".toList "users".toList =
      "http://h/api/users".toList :=
  ⟨(drop_create_collection_same_url "http://h".toList "users".toList).1,
   ((drop_create_collection_same_url "http://h".toList "users".toList).2
      (by decide)).trans (by decide)⟩
